import Mathlib

/-!
Shallow embedding of `src/main.rs` of the `solana-rpc-test` repository: a
sequential block-fetch loop against a JSON-RPC endpoint.  Pure data and
control flow are translated directly from the source; network transport,
wall-clock time and the serde-generated wire decoder are modelled as
explicit inputs (an outcome per remote call, an opaque latency string).
-/

namespace SolanaRpcTest

/-- `const SOLANA_BLOCK_NOT_AVAILABLE_ERROR: i64 = -32004;` (main.rs line 5). -/
def SOLANA_BLOCK_NOT_AVAILABLE_ERROR : Int := -32004

/-- `const SOLANA_BLOCK_SKIPPED_ERROR: i64 = -32007;` (main.rs line 6). -/
def SOLANA_BLOCK_SKIPPED_ERROR : Int := -32007

/-- A JSON value, standing in for `serde_json::Value`. -/
inductive Json where
  | null : Json
  | bool (b : Bool) : Json
  | num (n : Int) : Json
  | str (s : String) : Json
  | arr (elems : List Json) : Json
  | obj (fields : List (String × Json)) : Json

/-- `serde_json::Value::get(key)` on an object: look the key up, `None` on
non-objects or missing keys. -/
def Json.get (j : Json) (key : String) : Option Json :=
  match j with
  | .obj fields => fields.lookup key
  | _ => none

/-- `serde_json::Value::as_array()`: `Some` of the element list exactly on
arrays. -/
def Json.asArray (j : Json) : Option (List Json) :=
  match j with
  | .arr elems => some elems
  | _ => none

/-- `struct JsonRpcError { code: i64, message: String }` (main.rs 112-116). -/
structure JsonRpcError where
  code : Int
  message : String
deriving DecidableEq, Repr

/-- The `Display` impl for `JsonRpcError` (main.rs 118-122):
`write!(f, "JSON-RPC error {}: {}", self.code, self.message)`. -/
def JsonRpcError.display (e : JsonRpcError) : String :=
  "JSON-RPC error " ++ toString e.code ++ ": " ++ e.message

/-- `struct JsonRpcResponse<T> { jsonrpc, id, result: Option<T>,
error: Option<JsonRpcError> }` (main.rs 102-110). -/
structure JsonRpcResponse (T : Type) where
  jsonrpc : String
  id : Nat
  result : Option T
  error : Option JsonRpcError
deriving DecidableEq, Repr

/-- `struct JsonRpcRequest { jsonrpc, id, method, params }` (main.rs 83-89),
with `params` kept as a JSON value. -/
structure JsonRpcRequest where
  jsonrpc : String
  id : Nat
  method : String
  params : Json

/-- `JsonRpcRequest::new` (main.rs 91-100): fills in the `"2.0"` version tag. -/
def JsonRpcRequest.new (id : Nat) (method : String) (params : Json) :
    JsonRpcRequest :=
  { jsonrpc := "2.0", id := id, method := method, params := params }

/-- The fixed `get_block_cfg` JSON object (main.rs 26-31). -/
def get_block_cfg : Json :=
  .obj [("encoding", .str "json"),
        ("maxSupportedTransactionVersion", .num 0),
        ("transactionDetails", .str "full"),
        ("rewards", .bool false)]

/-- The `getSlot` request built at main.rs line 16. -/
def get_slot_req : JsonRpcRequest :=
  JsonRpcRequest.new 1 "getSlot" (.arr [])

/-- The `getBlock` request built at main.rs 37-41 for a given cursor value. -/
def block_req (slot_to_fetch : Nat) : JsonRpcRequest :=
  JsonRpcRequest.new 2 "getBlock" (.arr [.num (slot_to_fetch : Int), get_block_cfg])

/-- Outcome of one remote call, as seen by `main` after the two `?`
operators on `send().await?` and `.json().await?`: either a failure that
propagates (transport or decode), or a decoded `JsonRpcResponse` together
with the measured wall-clock latency rendered as an opaque string. -/
inductive CallOutcome (T : Type) where
  | transportFailure : CallOutcome T
  | decodeFailure : CallOutcome T
  | response (r : JsonRpcResponse T) (latency : String) : CallOutcome T
deriving DecidableEq, Repr

/-- `CallOutcome`s that propagate out through `?`. -/
def CallOutcome.isFailure {T : Type} : CallOutcome T → Bool
  | .transportFailure => true
  | .decodeFailure => true
  | .response _ _ => false

/-- Observable events of the loop, in program order: the `getBlock` request
issued at the top of each iteration, the retry sleep, and each `println!`
line (kept structured; `LoopEvent.render` gives the printed text). -/
inductive LoopEvent where
  | requested (slot : Nat) : LoopEvent
  | slept : LoopEvent
  | startLine (slot : Nat) : LoopEvent
  | skippedLine (slot : Nat) : LoopEvent
  | errorLine (e : JsonRpcError) : LoopEvent
  | fetchedLine (slot : Nat) (tx_count : Nat) (latency : String) : LoopEvent
  | noBlockDataLine (slot : Nat) : LoopEvent
  | noTransactionsLine (slot : Nat) : LoopEvent
deriving DecidableEq, Repr

/-- The console text of each event: `none` for the non-printing events,
otherwise exactly the `println!` format string of main.rs
(lines 34, 52, 55, 61, 66, 70-75) with its arguments substituted. -/
def LoopEvent.render : LoopEvent → Option String
  | .requested _ => none
  | .slept => none
  | .startLine slot =>
      some ("fetching blocks starting from slot: " ++ toString slot)
  | .skippedLine slot =>
      some ("slot: " ++ toString slot ++ " | skipped")
  | .errorLine e =>
      some ("error: " ++ e.display)
  | .fetchedLine slot tx_count latency =>
      some ("slot: " ++ toString slot ++ " | tx_count: " ++ toString tx_count
        ++ " | latency: " ++ latency)
  | .noBlockDataLine slot =>
      some ("no block data found for slot: " ++ toString slot)
  | .noTransactionsLine slot =>
      some ("no transactions found for slot: " ++ toString slot)

/-- How one loop iteration ends. -/
inductive IterResult where
  | next (slot_to_fetch : Nat) : IterResult
  | broke : IterResult
  | failed : IterResult
deriving DecidableEq, Repr

/-- One iteration of the `loop` body (main.rs 36-78), after the request has
been issued, given the call's outcome.  Returns the printed/slept events of
the iteration and whether the loop continues (with which cursor), breaks,
or propagates a failure. -/
def loopIter (slot_to_fetch : Nat) (o : CallOutcome Json) :
    List LoopEvent × IterResult :=
  match o with
  | .transportFailure => ([], .failed)
  | .decodeFailure => ([], .failed)
  | .response get_block_resp latency =>
    match get_block_resp.error with
    | some error =>
      if error.code = SOLANA_BLOCK_NOT_AVAILABLE_ERROR then
        ([.slept], .next slot_to_fetch)
      else if error.code = SOLANA_BLOCK_SKIPPED_ERROR then
        ([.skippedLine slot_to_fetch], .next (slot_to_fetch + 1))
      else
        ([.errorLine error], .next slot_to_fetch)
    | none =>
      match get_block_resp.result with
      | none => ([.noBlockDataLine slot_to_fetch], .broke)
      | some block =>
        match (block.get "transactions").bind Json.asArray with
        | none => ([.noTransactionsLine slot_to_fetch], .broke)
        | some txs =>
          ([.fetchedLine slot_to_fetch txs.length latency],
           .next (slot_to_fetch + 1))

/-- How a run of the loop ends, given finitely many call outcomes:
still running (with the cursor the next request would use), `break` followed
by `Ok(())`, or a propagated failure (`Err`). -/
inductive RunEnd where
  | running (slot_to_fetch : Nat) : RunEnd
  | exitOk : RunEnd
  | exitErr : RunEnd
deriving DecidableEq, Repr

/-- The fetch loop (main.rs 36-78) driven by a finite list of call
outcomes, one per iteration.  Each iteration first emits the request it
issues, then the iteration's events. -/
def runLoop (slot_to_fetch : Nat) :
    List (CallOutcome Json) → List LoopEvent × RunEnd
  | [] => ([], .running slot_to_fetch)
  | o :: rest =>
    let step := loopIter slot_to_fetch o
    match step.2 with
    | .next s =>
      let cont := runLoop s rest
      (.requested slot_to_fetch :: step.1 ++ cont.1, cont.2)
    | .broke => (.requested slot_to_fetch :: step.1, .exitOk)
    | .failed => (.requested slot_to_fetch :: step.1, .exitErr)

/-- How initialization (main.rs 16-24) ends. -/
inductive InitOutcome where
  | failed : InitOutcome
  | remoteErr (e : JsonRpcError) : InitOutcome
  | panicked : InitOutcome
  | started (latest_slot : Nat) : InitOutcome
deriving DecidableEq, Repr

/-- The initialization phase (main.rs 16-24): the `getSlot` call's outcome
is examined; transport/decode failures propagate, a populated `error`
returns `Err(error)`, a missing `result` hits
`.expect("expected slot result")` and panics, otherwise the cursor starts
at the returned slot. -/
def initStep (o : CallOutcome Nat) : InitOutcome :=
  match o with
  | .transportFailure => .failed
  | .decodeFailure => .failed
  | .response get_slot_resp _ =>
    match get_slot_resp.error with
    | some error => .remoteErr error
    | none =>
      match get_slot_resp.result with
      | some latest_slot => .started latest_slot
      | none => .panicked

/-- How the whole process ends (or stands, with outcomes exhausted). -/
inductive MainEnd where
  | stillRunning (slot_to_fetch : Nat) : MainEnd
  | exitOk : MainEnd
  | exitErr : MainEnd
  | panicked : MainEnd
deriving DecidableEq, Repr

/-- Lift a loop run's end to the process level: `break` falls through to
`Ok(())` (main.rs 80), a propagated failure makes `main` return `Err`. -/
def RunEnd.toMainEnd : RunEnd → MainEnd
  | .running s => .stillRunning s
  | .exitOk => .exitOk
  | .exitErr => .exitErr

/-- The whole of `main` after configuration (main.rs 16-81): initialize
from the `getSlot` outcome, print the start line, then run the fetch loop
over the given `getBlock` outcomes. -/
def runMain (init : CallOutcome Nat) (blocks : List (CallOutcome Json)) :
    List LoopEvent × MainEnd :=
  match initStep init with
  | .failed => ([], .exitErr)
  | .remoteErr _ => ([], .exitErr)
  | .panicked => ([], .panicked)
  | .started latest_slot =>
    let run := runLoop latest_slot blocks
    (.startLine latest_slot :: run.1, run.2.toMainEnd)

/-- The slot of a `getBlock` request event, if any. -/
def requestSlot? : LoopEvent → Option Nat
  | .requested s => some s
  | _ => none

/-- The slots of the `getBlock` requests issued during a run, in order. -/
def requestsOf (evs : List LoopEvent) : List Nat :=
  evs.filterMap requestSlot?

/-- The slot a printed line consumed (advanced past), if any: skip lines
and successful-fetch lines consume their slot. -/
def consumedSlot? : LoopEvent → Option Nat
  | .skippedLine s => some s
  | .fetchedLine s _ _ => some s
  | _ => none

/-- The slots the run consumed (advanced past), in order. -/
def consumedOf (evs : List LoopEvent) : List Nat :=
  evs.filterMap consumedSlot?

/-- A call outcome carrying a decoded response whose `error` field is the
"block not yet produced" remote error. -/
def isNotYetProduced : CallOutcome Json → Bool
  | .response r _ =>
    match r.error with
    | some e => e.code == SOLANA_BLOCK_NOT_AVAILABLE_ERROR
    | none => false
  | _ => false

/-- The top-level field names `JsonRpcResponse`'s derived decoder accepts
(main.rs 105-109). -/
def responseFieldNames : List String := ["jsonrpc", "id", "result", "error"]

/-- Decode an optional (`Option<T>`) struct field: absent or `null` gives
`none`, anything else must decode as a `T`. -/
def decodeOptField {T : Type} (decodeT : Json → Option T) :
    Option Json → Option (Option T)
  | none => some none
  | some .null => some none
  | some j => (decodeT j).map some

/-- Decode a `JsonRpcError` object (main.rs 112-116): `code` an integer,
`message` a string; extra fields are tolerated (no strictness attribute on
this struct). -/
def decodeJsonRpcError (j : Json) : Option JsonRpcError :=
  match j.get "code", j.get "message" with
  | some (.num code), some (.str message) => some ⟨code, message⟩
  | _, _ => none

/-- Decode a JSON number as a `u64`-style unsigned integer. -/
def decodeNat (j : Json) : Option Nat :=
  match j with
  | .num n => if n < 0 then none else some n.toNat
  | _ => none

/-- Modelled from the spec: the serde-derived wire decoder for
`JsonRpcResponse<T>` with `#[serde(deny_unknown_fields)]` (main.rs
102-110); the generated decoder itself is library output and not in the
source tree.  Per the spec, the payload must be an object, `jsonrpc` and
`id` are required with their declared types, `result` and `error` are
optional, and any other top-level field is a hard decode failure, not
silently ignored. -/
def decodeJsonRpcResponse {T : Type} (decodeT : Json → Option T) (j : Json) :
    Except String (JsonRpcResponse T) :=
  match j with
  | .obj fields =>
    if fields.all (fun kv => responseFieldNames.contains kv.1) then
      match decodeOptField (fun v => match v with
              | .str s => some s
              | _ => none) (fields.lookup "jsonrpc") with
      | some (some jsonrpc) =>
        match decodeOptField decodeNat (fields.lookup "id") with
        | some (some id) =>
          match decodeOptField decodeT (fields.lookup "result") with
          | some result =>
            match decodeOptField decodeJsonRpcError (fields.lookup "error") with
            | some error => .ok ⟨jsonrpc, id, result, error⟩
            | none => .error "invalid field: error"
          | none => .error "invalid field: result"
        | _ => .error "missing or invalid field: id"
      | _ => .error "missing or invalid field: jsonrpc"
    else
      .error "unknown field"
  | _ => .error "expected an object"

/-! ### Helper lemmas about single iterations and runs -/

lemma loopIter_notYet (s : Nat) (r : JsonRpcResponse Json) (lat : String)
    (e : JsonRpcError) (he : r.error = some e)
    (hc : e.code = SOLANA_BLOCK_NOT_AVAILABLE_ERROR) :
    loopIter s (.response r lat) = ([.slept], .next s) := by
  simp [loopIter, he, hc]

lemma loopIter_skipped (s : Nat) (r : JsonRpcResponse Json) (lat : String)
    (e : JsonRpcError) (he : r.error = some e)
    (hc : e.code = SOLANA_BLOCK_SKIPPED_ERROR) :
    loopIter s (.response r lat) = ([.skippedLine s], .next (s + 1)) := by
  simp [loopIter, he, hc, SOLANA_BLOCK_SKIPPED_ERROR,
    SOLANA_BLOCK_NOT_AVAILABLE_ERROR]

lemma loopIter_otherError (s : Nat) (r : JsonRpcResponse Json) (lat : String)
    (e : JsonRpcError) (he : r.error = some e)
    (h1 : e.code ≠ SOLANA_BLOCK_NOT_AVAILABLE_ERROR)
    (h2 : e.code ≠ SOLANA_BLOCK_SKIPPED_ERROR) :
    loopIter s (.response r lat) = ([.errorLine e], .next s) := by
  simp [loopIter, he, h1, h2]

lemma loopIter_noResult (s : Nat) (r : JsonRpcResponse Json) (lat : String)
    (he : r.error = none) (hr : r.result = none) :
    loopIter s (.response r lat) = ([.noBlockDataLine s], .broke) := by
  simp [loopIter, he, hr]

lemma loopIter_noTransactions (s : Nat) (r : JsonRpcResponse Json)
    (lat : String) (block : Json) (he : r.error = none)
    (hr : r.result = some block)
    (hb : (block.get "transactions").bind Json.asArray = none) :
    loopIter s (.response r lat) = ([.noTransactionsLine s], .broke) := by
  simp [loopIter, he, hr, hb]

lemma loopIter_success (s : Nat) (r : JsonRpcResponse Json) (lat : String)
    (block : Json) (txs : List Json) (he : r.error = none)
    (hr : r.result = some block)
    (hb : (block.get "transactions").bind Json.asArray = some txs) :
    loopIter s (.response r lat)
      = ([.fetchedLine s txs.length lat], .next (s + 1)) := by
  simp [loopIter, he, hr, hb]

lemma loopIter_remote_error_continues (s : Nat) (r : JsonRpcResponse Json)
    (lat : String) (e : JsonRpcError) (he : r.error = some e) :
    ∃ evs s', loopIter s (.response r lat) = (evs, .next s') := by
  by_cases h1 : e.code = SOLANA_BLOCK_NOT_AVAILABLE_ERROR
  · exact ⟨[.slept], s, loopIter_notYet s r lat e he h1⟩
  · by_cases h2 : e.code = SOLANA_BLOCK_SKIPPED_ERROR
    · exact ⟨[.skippedLine s], s + 1, loopIter_skipped s r lat e he h2⟩
    · exact ⟨[.errorLine e], s, loopIter_otherError s r lat e he h1 h2⟩

lemma loopIter_failed_iff (s : Nat) (o : CallOutcome Json) :
    (loopIter s o).2 = .failed ↔ o.isFailure = true := by
  cases o with
  | transportFailure => simp [loopIter, CallOutcome.isFailure]
  | decodeFailure => simp [loopIter, CallOutcome.isFailure]
  | response r lat =>
    simp only [CallOutcome.isFailure]
    rcases he : r.error with _ | e
    · rcases hr : r.result with _ | block
      · simp [loopIter_noResult s r lat he hr]
      · rcases hb : (block.get "transactions").bind Json.asArray with _ | txs
        · simp [loopIter_noTransactions s r lat block he hr hb]
        · simp [loopIter_success s r lat block txs he hr hb]
    · obtain ⟨evs, s', h⟩ := loopIter_remote_error_continues s r lat e he
      simp [h]

lemma requestsOf_loopIter (s : Nat) (o : CallOutcome Json) :
    requestsOf (loopIter s o).1 = [] := by
  cases o with
  | transportFailure => rfl
  | decodeFailure => rfl
  | response r lat =>
    rcases he : r.error with _ | e
    · rcases hr : r.result with _ | block
      · simp [loopIter_noResult s r lat he hr, requestsOf, requestSlot?]
      · rcases hb : (block.get "transactions").bind Json.asArray with _ | txs
        · simp [loopIter_noTransactions s r lat block he hr hb, requestsOf,
            requestSlot?]
        · simp [loopIter_success s r lat block txs he hr hb, requestsOf,
            requestSlot?]
    · by_cases h1 : e.code = SOLANA_BLOCK_NOT_AVAILABLE_ERROR
      · simp [loopIter_notYet s r lat e he h1, requestsOf, requestSlot?]
      · by_cases h2 : e.code = SOLANA_BLOCK_SKIPPED_ERROR
        · simp [loopIter_skipped s r lat e he h2, requestsOf, requestSlot?]
        · simp [loopIter_otherError s r lat e he h1 h2, requestsOf,
            requestSlot?]

lemma loopIter_classify (s : Nat) (o : CallOutcome Json) :
    ((loopIter s o).2 = .next s ∧ consumedOf (loopIter s o).1 = [])
    ∨ ((loopIter s o).2 = .next (s + 1)
        ∧ consumedOf (loopIter s o).1 = [s])
    ∨ (((loopIter s o).2 = .broke ∨ (loopIter s o).2 = .failed)
        ∧ consumedOf (loopIter s o).1 = []) := by
  cases o with
  | transportFailure => exact Or.inr (Or.inr ⟨Or.inr rfl, rfl⟩)
  | decodeFailure => exact Or.inr (Or.inr ⟨Or.inr rfl, rfl⟩)
  | response r lat =>
    rcases he : r.error with _ | e
    · rcases hr : r.result with _ | block
      · exact Or.inr (Or.inr ⟨Or.inl (by simp [loopIter_noResult s r lat he hr]),
          by simp [loopIter_noResult s r lat he hr, consumedOf, consumedSlot?]⟩)
      · rcases hb : (block.get "transactions").bind Json.asArray with _ | txs
        · exact Or.inr (Or.inr
            ⟨Or.inl (by simp [loopIter_noTransactions s r lat block he hr hb]),
             by simp [loopIter_noTransactions s r lat block he hr hb, consumedOf,
               consumedSlot?]⟩)
        · exact Or.inr (Or.inl
            ⟨by simp [loopIter_success s r lat block txs he hr hb],
             by simp [loopIter_success s r lat block txs he hr hb, consumedOf,
               consumedSlot?]⟩)
    · by_cases h1 : e.code = SOLANA_BLOCK_NOT_AVAILABLE_ERROR
      · exact Or.inl ⟨by simp [loopIter_notYet s r lat e he h1],
          by simp [loopIter_notYet s r lat e he h1, consumedOf, consumedSlot?]⟩
      · by_cases h2 : e.code = SOLANA_BLOCK_SKIPPED_ERROR
        · exact Or.inr (Or.inl ⟨by simp [loopIter_skipped s r lat e he h2],
            by simp [loopIter_skipped s r lat e he h2, consumedOf,
              consumedSlot?]⟩)
        · exact Or.inl ⟨by simp [loopIter_otherError s r lat e he h1 h2],
            by simp [loopIter_otherError s r lat e he h1 h2, consumedOf,
              consumedSlot?]⟩

lemma runLoop_cons (s : Nat) (o : CallOutcome Json)
    (rest : List (CallOutcome Json)) :
    runLoop s (o :: rest)
      = match (loopIter s o).2 with
        | .next s' =>
          (.requested s :: (loopIter s o).1 ++ (runLoop s' rest).1,
           (runLoop s' rest).2)
        | .broke => (.requested s :: (loopIter s o).1, .exitOk)
        | .failed => (.requested s :: (loopIter s o).1, .exitErr) := rfl

lemma runLoop_cons_next (s s' : Nat) (o : CallOutcome Json)
    (rest : List (CallOutcome Json)) (h : (loopIter s o).2 = .next s') :
    runLoop s (o :: rest)
      = (.requested s :: (loopIter s o).1 ++ (runLoop s' rest).1,
         (runLoop s' rest).2) := by
  rw [runLoop_cons, h]

lemma runLoop_cons_broke (s : Nat) (o : CallOutcome Json)
    (rest : List (CallOutcome Json)) (h : (loopIter s o).2 = .broke) :
    runLoop s (o :: rest) = (.requested s :: (loopIter s o).1, .exitOk) := by
  rw [runLoop_cons, h]

lemma runLoop_cons_failed (s : Nat) (o : CallOutcome Json)
    (rest : List (CallOutcome Json)) (h : (loopIter s o).2 = .failed) :
    runLoop s (o :: rest) = (.requested s :: (loopIter s o).1, .exitErr) := by
  rw [runLoop_cons, h]

lemma runLoop_events_head (s : Nat) (o : CallOutcome Json)
    (rest : List (CallOutcome Json)) :
    ((runLoop s (o :: rest)).1).head? = some (.requested s) := by
  cases h : (loopIter s o).2 with
  | next s' => simp [runLoop_cons_next s s' o rest h]
  | broke => simp [runLoop_cons_broke s o rest h]
  | failed => simp [runLoop_cons_failed s o rest h]

lemma requestsOf_cons_requested (s : Nat) (l : List LoopEvent) :
    requestsOf (.requested s :: l) = s :: requestsOf l := by
  simp [requestsOf, requestSlot?]

lemma requestsOf_append (l₁ l₂ : List LoopEvent) :
    requestsOf (l₁ ++ l₂) = requestsOf l₁ ++ requestsOf l₂ := by
  simp [requestsOf]

lemma consumedOf_cons_requested (s : Nat) (l : List LoopEvent) :
    consumedOf (.requested s :: l) = consumedOf l := by
  simp [consumedOf, consumedSlot?]

lemma consumedOf_append (l₁ l₂ : List LoopEvent) :
    consumedOf (l₁ ++ l₂) = consumedOf l₁ ++ consumedOf l₂ := by
  simp [consumedOf]

lemma requestsOf_runLoop_head (s : Nat) (o : CallOutcome Json)
    (rest : List (CallOutcome Json)) :
    (requestsOf (runLoop s (o :: rest)).1).head? = some s := by
  cases h : (loopIter s o).2 with
  | next s' =>
    simp only [runLoop_cons_next s s' o rest h, List.cons_append,
      requestsOf_cons_requested, List.head?_cons]
  | broke =>
    simp only [runLoop_cons_broke s o rest h, requestsOf_cons_requested,
      List.head?_cons]
  | failed =>
    simp only [runLoop_cons_failed s o rest h, requestsOf_cons_requested,
      List.head?_cons]

lemma runLoop_requests_chain (os : List (CallOutcome Json)) :
    ∀ C : Nat,
      List.Chain' (fun a b => b = a ∨ b = a + 1)
        (requestsOf (runLoop C os).1) := by
  induction os with
  | nil => intro C; simp [runLoop, requestsOf]
  | cons o rest ih =>
    intro C
    have hreq :
        ∀ s', (loopIter C o).2 = .next s' →
          requestsOf (runLoop C (o :: rest)).1
            = C :: requestsOf (runLoop s' rest).1 := by
      intro s' h
      simp only [runLoop_cons_next C s' o rest h, List.cons_append]
      rw [requestsOf_cons_requested, requestsOf_append, requestsOf_loopIter,
        List.nil_append]
    have hhead :
        ∀ s' y, y ∈ (requestsOf (runLoop s' rest).1).head? → y = s' := by
      intro s' y hy
      cases rest with
      | nil => simp [runLoop, requestsOf] at hy
      | cons o₂ rest₂ =>
        rw [requestsOf_runLoop_head s' o₂ rest₂] at hy
        have h' : s' = y := by simpa using hy
        omega
    rcases loopIter_classify C o with ⟨h2, _⟩ | ⟨h2, _⟩ | ⟨hbf, _⟩
    · rw [hreq C h2, List.chain'_cons']
      exact ⟨fun y hy => Or.inl (hhead C y hy), ih C⟩
    · rw [hreq (C + 1) h2, List.chain'_cons']
      exact ⟨fun y hy => Or.inr (hhead (C + 1) y hy), ih (C + 1)⟩
    · rcases hbf with h2 | h2
      · rw [runLoop_cons_broke C o rest h2, requestsOf_cons_requested,
          requestsOf_loopIter]
        simp
      · rw [runLoop_cons_failed C o rest h2, requestsOf_cons_requested,
          requestsOf_loopIter]
        simp

lemma runLoop_consumed_range (os : List (CallOutcome Json)) :
    ∀ C : Nat, ∃ n, consumedOf (runLoop C os).1 = List.range' C n := by
  induction os with
  | nil => intro C; exact ⟨0, by simp [runLoop, consumedOf]⟩
  | cons o rest ih =>
    intro C
    rcases loopIter_classify C o with ⟨h2, hcon⟩ | ⟨h2, hcon⟩ | ⟨hbf, hcon⟩
    · obtain ⟨n, hn⟩ := ih C
      exact ⟨n, by
        simp only [runLoop_cons_next C C o rest h2, List.cons_append]
        rw [consumedOf_cons_requested, consumedOf_append, hcon,
          List.nil_append, hn]⟩
    · obtain ⟨n, hn⟩ := ih (C + 1)
      exact ⟨n + 1, by
        simp only [runLoop_cons_next C (C + 1) o rest h2, List.cons_append]
        rw [consumedOf_cons_requested, consumedOf_append, hcon, hn,
          List.range'_succ]
        rfl⟩
    · refine ⟨0, ?_⟩
      rcases hbf with h2 | h2
      · simp only [runLoop_cons_broke C o rest h2]
        rw [consumedOf_cons_requested, hcon]
        rfl
      · simp only [runLoop_cons_failed C o rest h2]
        rw [consumedOf_cons_requested, hcon]
        rfl

lemma runLoop_exitErr_has_failure (os : List (CallOutcome Json)) :
    ∀ C : Nat, (runLoop C os).2 = .exitErr →
      ∃ o ∈ os, o.isFailure = true := by
  induction os with
  | nil => intro C h; simp [runLoop] at h
  | cons o rest ih =>
    intro C h
    cases hstep : (loopIter C o).2 with
    | next s' =>
      rw [runLoop_cons_next C s' o rest hstep] at h
      obtain ⟨o₂, ho₂, hf⟩ := ih s' h
      exact ⟨o₂, List.mem_cons_of_mem _ ho₂, hf⟩
    | broke =>
      rw [runLoop_cons_broke C o rest hstep] at h
      simp at h
    | failed =>
      exact ⟨o, List.mem_cons_self o rest,
        (loopIter_failed_iff C o).mp hstep⟩

/-! ### Claim theorems -/

/-- C1: for every cursor value `C`, while `getBlock` keeps returning the
remote error code `-32004` ("record not yet produced"), each iteration
requests the same cursor `C`, sleeps the fixed delay, and does not advance:
over any finite stretch of such outcomes the run's events are exactly a
request at `C` followed by a sleep, repeated, and the loop is still running
with cursor `C`. -/
theorem not_yet_produced_retries_same_cursor (C : Nat)
    (os : List (CallOutcome Json))
    (h : ∀ o ∈ os, isNotYetProduced o = true) :
    runLoop C os
      = ((List.replicate os.length
            [LoopEvent.requested C, LoopEvent.slept]).flatten,
         RunEnd.running C) := by
  induction os with
  | nil => simp [runLoop]
  | cons o rest ih =>
    have ho := h o (List.mem_cons_self o rest)
    rcases o with _ | _ | ⟨r, lat⟩
    · simp [isNotYetProduced] at ho
    · simp [isNotYetProduced] at ho
    · rcases he : r.error with _ | e
      · simp [isNotYetProduced, he] at ho
      · have hc : e.code = SOLANA_BLOCK_NOT_AVAILABLE_ERROR := by
          simpa [isNotYetProduced, he] using ho
        have hiter := loopIter_notYet C r lat e he hc
        have h2 : (loopIter C (.response r lat)).2 = .next C := by
          rw [hiter]
        rw [runLoop_cons_next C C _ rest h2, hiter,
          ih (fun o' ho' => h o' (List.mem_cons_of_mem _ ho'))]
        simp [List.replicate_succ]

/-- Witness for C1 at cursor 9 and two consecutive `-32004` responses. -/
theorem not_yet_produced_retries_same_cursor_witness :
    (∀ o ∈ [CallOutcome.response
              (⟨"2.0", 2, none, some ⟨-32004, "Block not available"⟩⟩ :
                JsonRpcResponse Json) "12ms",
            CallOutcome.response
              (⟨"2.0", 2, none, some ⟨-32004, "Block not available"⟩⟩ :
                JsonRpcResponse Json) "34ms"],
       isNotYetProduced o = true)
    ∧ runLoop 9
        [CallOutcome.response
          (⟨"2.0", 2, none, some ⟨-32004, "Block not available"⟩⟩ :
            JsonRpcResponse Json) "12ms",
         CallOutcome.response
          (⟨"2.0", 2, none, some ⟨-32004, "Block not available"⟩⟩ :
            JsonRpcResponse Json) "34ms"]
        = ((List.replicate 2 [LoopEvent.requested 9, LoopEvent.slept]).flatten,
           RunEnd.running 9) :=
  ⟨by decide, not_yet_produced_retries_same_cursor 9 _ (by decide)⟩

/-- C2: for every cursor value `C`, a `getBlock` outcome carrying the remote
error code `-32007` ("record permanently skipped") makes the iteration emit
the skip line for `C` and continue at `C + 1`: the run is the request at
`C`, the skip line, then the run from `C + 1`, whose first request (if any)
is at `C + 1`. -/
theorem skipped_advances_cursor (C : Nat) (r : JsonRpcResponse Json)
    (e : JsonRpcError) (lat : String) (rest : List (CallOutcome Json))
    (he : r.error = some e) (hc : e.code = SOLANA_BLOCK_SKIPPED_ERROR) :
    runLoop C (.response r lat :: rest)
      = (.requested C :: .skippedLine C :: (runLoop (C + 1) rest).1,
         (runLoop (C + 1) rest).2)
    ∧ (LoopEvent.skippedLine C).render
        = some ("slot: " ++ toString C ++ " | skipped")
    ∧ ∀ o rest₂, rest = o :: rest₂ →
        ((runLoop (C + 1) rest).1).head? = some (.requested (C + 1)) := by
  have hiter := loopIter_skipped C r lat e he hc
  have h2 : (loopIter C (.response r lat)).2 = .next (C + 1) := by rw [hiter]
  refine ⟨?_, rfl, ?_⟩
  · rw [runLoop_cons_next C (C + 1) _ rest h2, hiter]
    rfl
  · intro o rest₂ hrest
    subst hrest
    exact runLoop_events_head (C + 1) o rest₂

/-- Witness for C2 at cursor 41, one skip response followed by one further
iteration. -/
theorem skipped_advances_cursor_witness :
    runLoop 41
        [CallOutcome.response
          (⟨"2.0", 2, none, some ⟨-32007, "Slot 41 was skipped"⟩⟩ :
            JsonRpcResponse Json) "3ms",
         CallOutcome.response
          (⟨"2.0", 2, none, some ⟨-32007, "Slot 42 was skipped"⟩⟩ :
            JsonRpcResponse Json) "4ms"]
      = (.requested 41 :: .skippedLine 41 ::
          (runLoop 42 [CallOutcome.response
            (⟨"2.0", 2, none, some ⟨-32007, "Slot 42 was skipped"⟩⟩ :
              JsonRpcResponse Json) "4ms"]).1,
         (runLoop 42 [CallOutcome.response
            (⟨"2.0", 2, none, some ⟨-32007, "Slot 42 was skipped"⟩⟩ :
              JsonRpcResponse Json) "4ms"]).2)
    ∧ (LoopEvent.skippedLine 41).render
        = some ("slot: " ++ toString 41 ++ " | skipped")
    ∧ ∀ o rest₂,
        [CallOutcome.response
          (⟨"2.0", 2, none, some ⟨-32007, "Slot 42 was skipped"⟩⟩ :
            JsonRpcResponse Json) "4ms"] = o :: rest₂ →
        ((runLoop 42 [CallOutcome.response
            (⟨"2.0", 2, none, some ⟨-32007, "Slot 42 was skipped"⟩⟩ :
              JsonRpcResponse Json) "4ms"]).1).head?
          = some (.requested 42) :=
  skipped_advances_cursor 41 _ _ "3ms" _ rfl rfl

/-- C3: for every cursor value `C`, a successful `getBlock` response whose
payload has a `"transactions"` array with `N` entries makes the iteration
emit the status line carrying `C`, the count `N` and the measured latency,
and continue at `C + 1`, whose first request (if any) is at `C + 1`. -/
theorem success_emits_count_and_advances (C : Nat)
    (r : JsonRpcResponse Json) (lat : String) (block : Json)
    (txs : List Json) (rest : List (CallOutcome Json))
    (he : r.error = none) (hr : r.result = some block)
    (hb : (block.get "transactions").bind Json.asArray = some txs) :
    runLoop C (.response r lat :: rest)
      = (.requested C :: .fetchedLine C txs.length lat ::
          (runLoop (C + 1) rest).1,
         (runLoop (C + 1) rest).2)
    ∧ (LoopEvent.fetchedLine C txs.length lat).render
        = some ("slot: " ++ toString C ++ " | tx_count: "
            ++ toString txs.length ++ " | latency: " ++ lat)
    ∧ ∀ o rest₂, rest = o :: rest₂ →
        ((runLoop (C + 1) rest).1).head? = some (.requested (C + 1)) := by
  have hiter := loopIter_success C r lat block txs he hr hb
  have h2 : (loopIter C (.response r lat)).2 = .next (C + 1) := by rw [hiter]
  refine ⟨?_, rfl, ?_⟩
  · rw [runLoop_cons_next C (C + 1) _ rest h2, hiter]
    rfl
  · intro o rest₂ hrest
    subst hrest
    exact runLoop_events_head (C + 1) o rest₂

/-- Witness for C3 at cursor 1000, a block with 3 transactions, followed by
one further iteration. -/
theorem success_emits_count_and_advances_witness :
    runLoop 1000
        [CallOutcome.response
          (⟨"2.0", 2,
            some (.obj [("transactions", .arr [.null, .null, .null])]),
            none⟩ : JsonRpcResponse Json) "87ms",
         CallOutcome.transportFailure]
      = (.requested 1000 ::
          .fetchedLine 1000 (List.length [Json.null, .null, .null]) "87ms" ::
          (runLoop 1001 [CallOutcome.transportFailure]).1,
         (runLoop 1001 [CallOutcome.transportFailure]).2)
    ∧ (LoopEvent.fetchedLine 1000
          (List.length [Json.null, .null, .null]) "87ms").render
        = some ("slot: " ++ toString 1000 ++ " | tx_count: "
            ++ toString (List.length [Json.null, .null, .null])
            ++ " | latency: " ++ "87ms")
    ∧ ∀ o rest₂,
        ([CallOutcome.transportFailure] : List (CallOutcome Json))
          = o :: rest₂ →
        ((runLoop 1001 [CallOutcome.transportFailure]).1).head?
          = some (.requested 1001) :=
  success_emits_count_and_advances 1000 _ "87ms" _ _ _ rfl rfl rfl

/-- C4: the cursor invariants over any finite run: the sequence of requested
cursor values only ever repeats or increases by exactly 1 (monotonically
non-decreasing, never decremented or reset, and every call uses the cursor's
last value, which heads each iteration); and the slots consumed (skipped or
successfully fetched) form exactly the consecutive range starting at the
initial cursor — each value at most once, none omitted. -/
theorem cursor_invariants :
    (∀ (C : Nat) (os : List (CallOutcome Json)),
       List.Chain' (fun a b => b = a ∨ b = a + 1)
         (requestsOf (runLoop C os).1))
    ∧ (∀ (C : Nat) (os : List (CallOutcome Json)),
         ∃ n, consumedOf (runLoop C os).1 = List.range' C n)
    ∧ (∀ (C : Nat) (o : CallOutcome Json) (rest : List (CallOutcome Json)),
         (requestsOf (runLoop C (o :: rest)).1).head? = some C) :=
  ⟨fun C os => runLoop_requests_chain os C,
   fun C os => runLoop_consumed_range os C,
   fun C o rest => requestsOf_runLoop_head C o rest⟩

/-- C5: if the `getSlot` call decodes successfully with result `F` and no
error, initialization starts the cursor at `F`, the process prints the start
line for `F` and runs the loop from `F`; the first `getBlock` request (if
any) uses cursor `F`. -/
theorem init_sets_cursor_to_frontier (r : JsonRpcResponse Nat)
    (lat : String) (F : Nat) (os : List (CallOutcome Json))
    (he : r.error = none) (hr : r.result = some F) :
    initStep (.response r lat) = .started F
    ∧ runMain (.response r lat) os
        = (.startLine F :: (runLoop F os).1, (runLoop F os).2.toMainEnd)
    ∧ ∀ o rest, os = o :: rest →
        ((runLoop F os).1).head? = some (.requested F) := by
  have hinit : initStep (.response r lat) = .started F := by
    simp [initStep, he, hr]
  refine ⟨hinit, by simp [runMain, hinit], ?_⟩
  intro o rest hos
  subst hos
  exact runLoop_events_head F o rest

/-- Witness for C5 with frontier 1000 and a single fetch iteration. -/
theorem init_sets_cursor_to_frontier_witness :
    initStep (.response (⟨"2.0", 1, some 1000, none⟩ : JsonRpcResponse Nat)
        "5ms") = .started 1000
    ∧ runMain (.response (⟨"2.0", 1, some 1000, none⟩ : JsonRpcResponse Nat)
          "5ms") [CallOutcome.transportFailure]
        = (.startLine 1000 ::
            (runLoop 1000 [CallOutcome.transportFailure]).1,
           (runLoop 1000 [CallOutcome.transportFailure]).2.toMainEnd)
    ∧ ∀ o rest,
        ([CallOutcome.transportFailure] : List (CallOutcome Json))
          = o :: rest →
        ((runLoop 1000 [CallOutcome.transportFailure]).1).head?
          = some (.requested 1000) :=
  init_sets_cursor_to_frontier _ "5ms" 1000 _ rfl rfl

/-- C6: a successful `getBlock` response with an absent `result`, or with a
result lacking a `"transactions"` array, makes the iteration print the
corresponding "no block data" / "no transactions" line and break out of the
loop with no further request, whatever outcomes would have followed; the
loop end is the clean `Ok(())` exit, which is the process's clean exit. -/
theorem missing_data_terminates_cleanly :
    (∀ (C : Nat) (r : JsonRpcResponse Json) (lat : String)
        (rest : List (CallOutcome Json)),
       r.error = none →
       ((r.result = none →
           runLoop C (.response r lat :: rest)
             = ([.requested C, .noBlockDataLine C], .exitOk))
        ∧ ∀ block, r.result = some block →
            (block.get "transactions").bind Json.asArray = none →
            runLoop C (.response r lat :: rest)
              = ([.requested C, .noTransactionsLine C], .exitOk)))
    ∧ (∀ (init : CallOutcome Nat) (F : Nat) (os : List (CallOutcome Json)),
         initStep init = .started F → (runLoop F os).2 = .exitOk →
         (runMain init os).2 = .exitOk)
    ∧ ∀ C : Nat,
        (LoopEvent.noBlockDataLine C).render
          = some ("no block data found for slot: " ++ toString C)
        ∧ (LoopEvent.noTransactionsLine C).render
          = some ("no transactions found for slot: " ++ toString C) := by
  refine ⟨?_, ?_, fun C => ⟨rfl, rfl⟩⟩
  · intro C r lat rest he
    constructor
    · intro hr
      have hiter := loopIter_noResult C r lat he hr
      have h2 : (loopIter C (.response r lat)).2 = .broke := by rw [hiter]
      rw [runLoop_cons_broke C _ rest h2, hiter]
    · intro block hr hb
      have hiter := loopIter_noTransactions C r lat block he hr hb
      have h2 : (loopIter C (.response r lat)).2 = .broke := by rw [hiter]
      rw [runLoop_cons_broke C _ rest h2, hiter]
  · intro init F os hinit hend
    simp [runMain, hinit, hend, RunEnd.toMainEnd]

/-- Witness for C6: a null-result response at cursor 1003 ends the loop
cleanly even with further outcomes pending, and the process exits `Ok`. -/
theorem missing_data_terminates_cleanly_witness :
    ((⟨"2.0", 2, none, none⟩ : JsonRpcResponse Json).result = none →
      runLoop 1003
          [.response (⟨"2.0", 2, none, none⟩ : JsonRpcResponse Json) "9ms",
           CallOutcome.transportFailure]
        = ([.requested 1003, .noBlockDataLine 1003], .exitOk))
    ∧ (runMain
        (.response (⟨"2.0", 1, some 1003, none⟩ : JsonRpcResponse Nat) "5ms")
        [.response (⟨"2.0", 2, none, none⟩ : JsonRpcResponse Json) "9ms",
         CallOutcome.transportFailure]).2 = .exitOk :=
  ⟨(missing_data_terminates_cleanly.1 1003 _ "9ms"
      [CallOutcome.transportFailure] rfl).1,
   missing_data_terminates_cleanly.2.1
     (.response (⟨"2.0", 1, some 1003, none⟩ : JsonRpcResponse Nat) "5ms")
     1003
     [.response (⟨"2.0", 2, none, none⟩ : JsonRpcResponse Json) "9ms",
      CallOutcome.transportFailure]
     rfl rfl⟩

/-- C7 counterexample: at cursor 5, an unclassified remote error (code -1,
message "boom") makes the iteration emit exactly the line
`error: JSON-RPC error -1: boom` — which does not contain the cursor value
(the character of `toString 5` does not occur in it), contradicting the
claim that the error status line contains at minimum the cursor value. -/
theorem unclassified_error_line_lacks_cursor :
    loopIter 5 (.response
        (⟨"2.0", 2, none, some ⟨-1, "boom"⟩⟩ : JsonRpcResponse Json) "1ms")
      = ([.errorLine ⟨-1, "boom"⟩], .next 5)
    ∧ (LoopEvent.errorLine ⟨-1, "boom"⟩).render
        = some "error: JSON-RPC error -1: boom"
    ∧ toString 5 = "5"
    ∧ ¬ '5' ∈ "error: JSON-RPC error -1: boom".data :=
  ⟨rfl, rfl, rfl, by decide⟩

/-- C7 (amended): for every cursor value `C`, a remote error with any code
other than -32004 and -32007 makes the iteration emit an error status line
describing the error's code and message (the line does not include the
cursor value), without advancing the cursor, without any delay, and without
terminating: the loop immediately retries the same cursor `C`. -/
theorem unclassified_error_retries_without_delay (C : Nat)
    (r : JsonRpcResponse Json) (e : JsonRpcError) (lat : String)
    (rest : List (CallOutcome Json)) (he : r.error = some e)
    (h1 : e.code ≠ SOLANA_BLOCK_NOT_AVAILABLE_ERROR)
    (h2 : e.code ≠ SOLANA_BLOCK_SKIPPED_ERROR) :
    runLoop C (.response r lat :: rest)
      = (.requested C :: .errorLine e :: (runLoop C rest).1,
         (runLoop C rest).2)
    ∧ (LoopEvent.errorLine e).render = some ("error: " ++ e.display)
    ∧ e.display
        = "JSON-RPC error " ++ toString e.code ++ ": " ++ e.message
    ∧ ∀ o rest₂, rest = o :: rest₂ →
        ((runLoop C rest).1).head? = some (.requested C) := by
  have hiter := loopIter_otherError C r lat e he h1 h2
  have hn : (loopIter C (.response r lat)).2 = .next C := by rw [hiter]
  refine ⟨?_, rfl, rfl, ?_⟩
  · rw [runLoop_cons_next C C _ rest hn, hiter]
    rfl
  · intro o rest₂ hrest
    subst hrest
    exact runLoop_events_head C o rest₂

/-- Witness for the amended C7 at cursor 7, error code -32000, one further
iteration pending. -/
theorem unclassified_error_retries_without_delay_witness :
    runLoop 7
        [.response (⟨"2.0", 2, none, some ⟨-32000, "oops"⟩⟩ :
            JsonRpcResponse Json) "2ms",
         CallOutcome.transportFailure]
      = (.requested 7 :: .errorLine ⟨-32000, "oops"⟩ ::
          (runLoop 7 [CallOutcome.transportFailure]).1,
         (runLoop 7 [CallOutcome.transportFailure]).2)
    ∧ (LoopEvent.errorLine ⟨-32000, "oops"⟩).render
        = some ("error: " ++ (⟨-32000, "oops"⟩ : JsonRpcError).display)
    ∧ (⟨-32000, "oops"⟩ : JsonRpcError).display
        = "JSON-RPC error " ++ toString (⟨-32000, "oops"⟩ : JsonRpcError).code
            ++ ": " ++ (⟨-32000, "oops"⟩ : JsonRpcError).message
    ∧ ∀ o rest₂,
        ([CallOutcome.transportFailure] : List (CallOutcome Json))
          = o :: rest₂ →
        ((runLoop 7 [CallOutcome.transportFailure]).1).head?
          = some (.requested 7) :=
  unclassified_error_retries_without_delay 7 _ _ "2ms" _ rfl
    (by decide) (by decide)

/-- C8: only transport failures, decode failures and an initialization-phase
remote error can make the process end in the failure exit; every remote
error carried by a decoded per-record `getBlock` response is handled in the
loop and continues it; and an initialization-phase remote error does unwind
as the failure exit. -/
theorem only_failures_unwind :
    (∀ (init : CallOutcome Nat) (os : List (CallOutcome Json)),
       (runMain init os).2 = .exitErr →
       init.isFailure = true
       ∨ (∃ r lat e, init = .response r lat ∧ r.error = some e)
       ∨ ∃ o ∈ os, o.isFailure = true)
    ∧ (∀ (C : Nat) (r : JsonRpcResponse Json) (lat : String)
         (e : JsonRpcError), r.error = some e →
         ∃ evs s', loopIter C (.response r lat) = (evs, .next s'))
    ∧ (∀ (r : JsonRpcResponse Nat) (lat : String) (e : JsonRpcError)
         (os : List (CallOutcome Json)), r.error = some e →
         runMain (.response r lat) os = ([], .exitErr)) := by
  refine ⟨?_, ?_, ?_⟩
  · intro init os h
    rcases init with _ | _ | ⟨r, lat⟩
    · exact Or.inl rfl
    · exact Or.inl rfl
    · rcases he : r.error with _ | e
      · rcases hr : r.result with _ | F
        · exfalso
          simp [runMain, initStep, he, hr] at h
        · refine Or.inr (Or.inr ?_)
          have hinit : initStep (.response r lat) = .started F := by
            simp [initStep, he, hr]
          have h' : (runLoop F os).2.toMainEnd = MainEnd.exitErr := by
            simpa [runMain, hinit] using h
          rcases hre : (runLoop F os).2 with s | _ | _
          · rw [hre] at h'
            simp [RunEnd.toMainEnd] at h'
          · rw [hre] at h'
            simp [RunEnd.toMainEnd] at h'
          · exact runLoop_exitErr_has_failure os F hre
      · exact Or.inr (Or.inl ⟨r, lat, e, rfl, he⟩)
  · intro C r lat e he
    exact loopIter_remote_error_continues C r lat e he
  · intro r lat e os he
    simp [runMain, initStep, he]

/-- Witness for C8: a transport failure at initialization, a decoded -32000
remote error handled in-loop, and an initialization remote error unwinding
as the failure exit. -/
theorem only_failures_unwind_witness :
    ((CallOutcome.transportFailure : CallOutcome Nat).isFailure = true
      ∨ (∃ r lat e, (CallOutcome.transportFailure : CallOutcome Nat)
            = .response r lat ∧ r.error = some e)
      ∨ ∃ o ∈ ([] : List (CallOutcome Json)), o.isFailure = true)
    ∧ (∃ evs s', loopIter 3 (.response
          (⟨"2.0", 2, none, some ⟨-32000, "oops"⟩⟩ : JsonRpcResponse Json)
          "1ms") = (evs, .next s'))
    ∧ runMain (.response
          (⟨"2.0", 1, none, some ⟨-32000, "oops"⟩⟩ : JsonRpcResponse Nat)
          "1ms") [] = ([], .exitErr) :=
  ⟨only_failures_unwind.1 .transportFailure [] rfl,
   only_failures_unwind.2.1 3 _ "1ms" ⟨-32000, "oops"⟩ rfl,
   only_failures_unwind.2.2 _ "1ms" ⟨-32000, "oops"⟩ [] rfl⟩

/-- C9: decoding a response object with any top-level field outside
`jsonrpc`, `id`, `result`, `error` is a hard decode failure: the strict
decoder returns an error, never silently ignoring the field. -/
theorem unknown_field_rejected (T : Type) (decodeT : Json → Option T)
    (fields : List (String × Json)) (kv : String × Json)
    (hmem : kv ∈ fields)
    (hunknown : responseFieldNames.contains kv.1 = false) :
    decodeJsonRpcResponse decodeT (.obj fields)
      = .error "unknown field" := by
  have hall :
      (fields.all fun kv => responseFieldNames.contains kv.1) = false := by
    cases hAll : fields.all fun kv => responseFieldNames.contains kv.1 with
    | false => rfl
    | true =>
      exfalso
      rw [List.all_eq_true] at hAll
      have hkv := hAll kv hmem
      rw [hunknown] at hkv
      exact Bool.false_ne_true hkv
  have hcond :
      ¬ (fields.all fun kv => responseFieldNames.contains kv.1) = true := by
    rw [hall]
    exact Bool.false_ne_true
  simp only [decodeJsonRpcResponse]
  rw [if_neg hcond]

/-- Witness for C9: a payload whose only top-level field is `bogus` is
rejected by the strict decoder. -/
theorem unknown_field_rejected_witness :
    (("bogus", Json.null) ∈ [("bogus", Json.null)])
    ∧ responseFieldNames.contains "bogus" = false
    ∧ decodeJsonRpcResponse decodeNat (.obj [("bogus", Json.null)])
        = .error "unknown field" :=
  ⟨List.mem_singleton.mpr rfl, by decide,
   unknown_field_rejected Nat decodeNat [("bogus", Json.null)]
     ("bogus", Json.null) (List.mem_singleton.mpr rfl) (by decide)⟩

/-- C10: a `getSlot` response that decodes with neither `result` nor
`error` populated makes initialization panic (the `expect` on the missing
result), an end state distinct from both the typed-error exit and the
clean "no data" termination, whatever `getBlock` outcomes would follow. -/
theorem init_missing_result_panics (jsonrpc : String) (id : Nat)
    (lat : String) (os : List (CallOutcome Json)) :
    initStep (.response (⟨jsonrpc, id, none, none⟩ : JsonRpcResponse Nat)
        lat) = .panicked
    ∧ runMain (.response (⟨jsonrpc, id, none, none⟩ : JsonRpcResponse Nat)
        lat) os = ([], .panicked)
    ∧ MainEnd.panicked ≠ MainEnd.exitOk
    ∧ MainEnd.panicked ≠ MainEnd.exitErr :=
  ⟨rfl, rfl, by decide, by decide⟩

end SolanaRpcTest
